import Mathlib

/-
Verification of the ecactus ECOS API client library.

The development shallowly embeds the request/response contract layer of the
library: the vendor JSON envelope, the blocking client (class Ecos in
src/ecactus/client.py), the non-blocking client (class AsyncEcos in
src/ecactus/async_client.py), the pydantic Home model validator
(src/ecactus/model.py), and the mock vendor server (tests/mock_server.py).
Python values decoded from JSON are modelled by the inductive type JVal;
raising an exception is modelled by returning a dedicated constructor of
OpResult.  Integral floats appearing in fixtures (0.0 and the like) are
modelled by their integer value.
-/

namespace Ecactus

/-- A Python value decoded from a JSON body.  jnull is Python None; the
object constructor keeps the field order of the source literal. -/
inductive JVal where
  | jnull
  | jbool (b : Bool)
  | jnum (n : Int)
  | jstr (s : String)
  | jarr (elems : List JVal)
  | jobj (fields : List (String × JVal))

/-- Python dict subscription obj[key]: none models a KeyError or a
TypeError (subscripting a non-dict). -/
def JVal.getField : JVal → String → Option JVal
  | .jobj fields, key => fields.lookup key
  | _, _ => none

/-- Python dict assignment obj[key] = v: replaces the value of an existing
key in place, appends the key otherwise. -/
def setField : List (String × JVal) → String → JVal → List (String × JVal)
  | [], k, v => [(k, v)]
  | (k0, v0) :: rest, k, v =>
      if k0 = k then (k, v) :: rest else (k0, v0) :: setField rest k v

/-- Python equality between a decoded JSON value and a string literal:
only a string compares equal to a string. -/
def pyEqStr (v : JVal) (s : String) : Bool :=
  match v with
  | .jstr t => t = s
  | _ => false

/-- Python equality between a decoded JSON value and an int literal:
numbers compare by value, booleans as 0 and 1, nothing else is equal. -/
def pyEqInt (v : JVal) (n : Int) : Bool :=
  match v with
  | .jnum m => m = n
  | .jbool b => (if b then (1 : Int) else 0) = n
  | _ => false

/-- Python int(v): numbers pass through, booleans as 0 and 1, strings are
parsed; none models the TypeError or ValueError raised otherwise. -/
def pyToInt : JVal → Option Int
  | .jnum n => some n
  | .jbool b => some (if b then 1 else 0)
  | .jstr s => s.toInt?
  | _ => none

/-- Python str(x) for x = payload.get(key): an absent key gives None which
prints as None.  Containers are abbreviated; no claim inspects them. -/
def pyStr : Option JVal → String
  | none => "None"
  | some .jnull => "None"
  | some (.jbool b) => if b then "True" else "False"
  | some (.jnum n) => toString n
  | some (.jstr s) => s
  | some (.jarr _) => "<list>"
  | some (.jobj _) => "<dict>"

/-- Python truthiness test for data.get(key) on a string field: absent or
empty is falsy. -/
def pyFalsy : Option String → Bool
  | none => true
  | some s => s.isEmpty

/-- The vendor wire envelope: code, message, success, and an optional data
payload.  data = none models a body without the data key; JVal.jnull is a
JSON null data value. -/
structure Envelope where
  code : Int
  message : String
  success : Bool
  data : Option JVal

/-- A completed HTTP response: status code and decoded body.  body = none
models a body that is not decodable as JSON. -/
structure HttpResponse where
  status : Nat
  body : Option Envelope

/-- The observable result of one client operation.  ret is a normal return
(JVal.jnull for a Python None return); each raise constructor names the
exception class the operation lets escape.  setTokens models login storing
the token pair on the session. -/
inductive OpResult where
  | ret (v : JVal)
  | setTokens (access refresh : JVal)
  | raiseValueApiFailed (code : Int) (message : String)
  | raiseValueInvalidJson (code : Int) (message : String)
  | raiseHttpError (status : Nat) (message : String)
  | raiseApiError (code : Int) (message : String)
  | raiseInvalidEnvelope
  | raiseUnauthorized
  | raiseHttp (status : Nat)
  | raiseAuth
  | raiseHomeNotExist (homeId : JVal)
  | raiseUnauthorizedDevice (deviceId : JVal)
  | raiseParamVerif
  | raiseUnboundLocal
  | raiseKeyError
  | raisePyTypeError

/-- Envelope handling of Ecos._get (client.py, lines 89-108).  When the
body is not decodable the except clause evaluates body["code"] with the
local variable body never assigned, so the intended invalid-JSON
ValueError is preempted by an UnboundLocalError.  response.ok in the
requests library is status < 400.  A success body without a data key
raises KeyError at body["data"]. -/
def Ecos.getOutcome (resp : HttpResponse) : OpResult :=
  match resp.body with
  | none => .raiseUnboundLocal
  | some env =>
    if 400 ≤ resp.status then .raiseHttpError resp.status env.message
    else if env.success = false then .raiseValueApiFailed env.code env.message
    else
      match env.data with
      | some d => .ret d
      | none => .raiseKeyError

/-- Envelope handling of Ecos._post (client.py, lines 125-143), identical
to Ecos._get. -/
def Ecos.postOutcome (resp : HttpResponse) : OpResult :=
  match resp.body with
  | none => .raiseUnboundLocal
  | some env =>
    if 400 ≤ resp.status then .raiseHttpError resp.status env.message
    else if env.success = false then .raiseValueApiFailed env.code env.message
    else
      match env.data with
      | some d => .ret d
      | none => .raiseKeyError

/-- Ecos.login (client.py, lines 145-163): posts the credentials and, on a
normal return, stores data["accessToken"] and data["refreshToken"].  Any
error of _post escapes untranslated. -/
def Ecos.loginOp (resp : HttpResponse) : OpResult :=
  match Ecos.postOutcome resp with
  | .ret d =>
    match d.getField "accessToken", d.getField "refreshToken" with
    | some a, some r => .setTokens a r
    | _, _ => .raiseKeyError
  | e => e

/-- Ecos.get_user_info (client.py, lines 165-182): a bare _get. -/
def Ecos.getUserInfoOp (resp : HttpResponse) : OpResult :=
  Ecos.getOutcome resp

/-- The loop body of Ecos.get_homes (client.py, lines 212-216): the name is
forced only when home["homeType"] equals the STRING "0"; none models a
KeyError or TypeError on the subscription. -/
def Ecos.forceSharedName (home : JVal) : Option JVal :=
  match home with
  | .jobj fields =>
    match (JVal.jobj fields).getField "homeType" with
    | none => none
    | some t =>
      if pyEqStr t "0" then
        some (.jobj (setField fields "homeName" (.jstr "SHARED_DEVICES")))
      else some (.jobj fields)
  | _ => none

/-- Ecos.get_homes (client.py, lines 184-217): gets the home list and runs
the forcing loop over it. -/
def Ecos.getHomesOp (resp : HttpResponse) : OpResult :=
  match Ecos.getOutcome resp with
  | .ret d =>
    match d with
    | .jarr homes =>
      match homes.mapM Ecos.forceSharedName with
      | some hs => .ret (.jarr hs)
      | none => .raisePyTypeError
    | _ => .raisePyTypeError
  | e => e

/-- Ecos.get_devices (client.py, lines 219-254): a bare _get with a homeId
payload; no error-code translation is performed. -/
def Ecos.getDevicesOp (homeId : JVal) (resp : HttpResponse) : OpResult :=
  Ecos.getOutcome resp

/-- Ecos.get_all_devices (client.py, lines 256-282): a bare _get. -/
def Ecos.getAllDevicesOp (resp : HttpResponse) : OpResult :=
  Ecos.getOutcome resp

/-- Ecos.get_realtime_device_data (client.py, lines 284-306): a bare _post
to the now/device/realtime path. -/
def Ecos.getRealtimeDeviceDataOp (deviceId : JVal) (resp : HttpResponse) : OpResult :=
  Ecos.postOutcome resp

/-- Ecos.get_realtime_home_data (client.py, lines 308-334): a bare _get. -/
def Ecos.getRealtimeHomeDataOp (homeId : JVal) (resp : HttpResponse) : OpResult :=
  Ecos.getOutcome resp

/-- Ecos.get_history (client.py, lines 336-371): a bare _post. -/
def Ecos.getHistoryOp (deviceId : JVal) (resp : HttpResponse) : OpResult :=
  Ecos.postOutcome resp

/-- Ecos.get_insight (client.py, lines 373-434): a bare _post. -/
def Ecos.getInsightOp (deviceId : JVal) (resp : HttpResponse) : OpResult :=
  Ecos.postOutcome resp

/-- Outcome of one transport call of the non-blocking client, that is of
_BaseEcos._async_get or _async_post.  The error taxonomy follows spec
section 4.1: the transport and envelope layer raises only the generic
kinds. -/
inductive ApiOutcome where
  | ok (data : JVal)
  | invalidEnvelope
  | unauthorized
  | httpError (status : Nat)
  | apiError (code : Int) (message : String)

/-- An escaping transport outcome seen as an operation result. -/
def ApiOutcome.toResult : ApiOutcome → OpResult
  | .ok d => .ret d
  | .invalidEnvelope => .raiseInvalidEnvelope
  | .unauthorized => .raiseUnauthorized
  | .httpError s => .raiseHttp s
  | .apiError c m => .raiseApiError c m

/-- Modelled from the spec: the non-blocking envelope codec lives in
_BaseEcos._async_get and _async_post in src/ecactus/base.py, which is
absent from the source tree (async_client.py imports it).  Spec section
4.2 gives the priority chain: a body that cannot be decoded fails as an
invalid envelope, HTTP 401 is the unauthorized condition, any other
non-2xx status is a transport failure carrying the status, an envelope
with success false is a business failure carrying code and message, and
otherwise the data (possibly absent or null) is returned. -/
def BaseEcos.asyncCodec (resp : HttpResponse) : ApiOutcome :=
  match resp.body with
  | none => .invalidEnvelope
  | some env =>
    if resp.status = 401 then .unauthorized
    else if ¬(200 ≤ resp.status ∧ resp.status < 300) then .httpError resp.status
    else if env.success = false then .apiError env.code env.message
    else .ok (env.data.getD .jnull)

/-- AsyncEcos.login (async_client.py, lines 28-54).  The except clause
re-raises only code 20414; any other ApiResponseError is swallowed and
control falls through to data["accessToken"] with the local variable data
never assigned, an UnboundLocalError. -/
def AsyncEcos.loginOp (out : ApiOutcome) : OpResult :=
  match out with
  | .apiError c _ => if c = 20414 then .raiseAuth else .raiseUnboundLocal
  | .ok d =>
    match d.getField "accessToken", d.getField "refreshToken" with
    | some a, some r => .setTokens a r
    | _, _ => .raiseKeyError
  | e => e.toResult

/-- AsyncEcos.get_user_info (async_client.py, lines 56-82): a bare
transport call. -/
def AsyncEcos.getUserInfoOp (out : ApiOutcome) : OpResult :=
  out.toResult

/-- The loop body of AsyncEcos.get_homes (async_client.py, lines 123-127):
the name is forced when int(home["homeType"]) equals 0; none models a
KeyError, TypeError or ValueError raised by the subscription or by int. -/
def AsyncEcos.forceSharedName (home : JVal) : Option JVal :=
  match home with
  | .jobj fields =>
    match (JVal.jobj fields).getField "homeType" with
    | none => none
    | some t =>
      match pyToInt t with
      | none => none
      | some n =>
        if n = 0 then
          some (.jobj (setField fields "homeName" (.jstr "SHARED_DEVICES")))
        else some (.jobj fields)
  | _ => none

/-- AsyncEcos.get_homes (async_client.py, lines 84-128). -/
def AsyncEcos.getHomesOp (out : ApiOutcome) : OpResult :=
  match out with
  | .ok d =>
    match d with
    | .jarr homes =>
      match homes.mapM AsyncEcos.forceSharedName with
      | some hs => .ret (.jarr hs)
      | none => .raisePyTypeError
    | _ => .raisePyTypeError
  | e => e.toResult

/-- AsyncEcos.get_devices (async_client.py, lines 130-177).  Code 20450 is
re-raised as HomeDoesNotExistError carrying the home id; any other
ApiResponseError is swallowed by the except clause and the function
returns None. -/
def AsyncEcos.getDevicesOp (homeId : JVal) (out : ApiOutcome) : OpResult :=
  match out with
  | .apiError c _ => if c = 20450 then .raiseHomeNotExist homeId else .ret .jnull
  | e => e.toResult

/-- AsyncEcos.get_all_devices (async_client.py, lines 179-214): a bare
transport call. -/
def AsyncEcos.getAllDevicesOp (out : ApiOutcome) : OpResult :=
  out.toResult

/-- AsyncEcos.get_today_device_data (async_client.py, lines 216-253): code
20424 becomes UnauthorizedDeviceError; other codes are swallowed. -/
def AsyncEcos.getTodayDeviceDataOp (deviceId : JVal) (out : ApiOutcome) : OpResult :=
  match out with
  | .apiError c _ =>
      if c = 20424 then .raiseUnauthorizedDevice deviceId else .ret .jnull
  | e => e.toResult

/-- AsyncEcos.get_realtime_home_data (async_client.py, lines 255-297):
code 20450 becomes HomeDoesNotExistError; other codes are swallowed. -/
def AsyncEcos.getRealtimeHomeDataOp (homeId : JVal) (out : ApiOutcome) : OpResult :=
  match out with
  | .apiError c _ => if c = 20450 then .raiseHomeNotExist homeId else .ret .jnull
  | e => e.toResult

/-- AsyncEcos.get_realtime_device_data (async_client.py, lines 299-351):
code 20424 becomes UnauthorizedDeviceError; other codes are swallowed. -/
def AsyncEcos.getRealtimeDeviceDataOp (deviceId : JVal) (out : ApiOutcome) : OpResult :=
  match out with
  | .apiError c _ =>
      if c = 20424 then .raiseUnauthorizedDevice deviceId else .ret .jnull
  | e => e.toResult

/-- AsyncEcos.get_history (async_client.py, lines 353-407): codes 20424
and 20404 are translated; other codes are swallowed. -/
def AsyncEcos.getHistoryOp (deviceId : JVal) (out : ApiOutcome) : OpResult :=
  match out with
  | .apiError c _ =>
      if c = 20424 then .raiseUnauthorizedDevice deviceId
      else if c = 20404 then .raiseParamVerif
      else .ret .jnull
  | e => e.toResult

/-- AsyncEcos.get_insight (async_client.py, lines 409-493): codes 20424
and 20404 are translated; other codes are swallowed. -/
def AsyncEcos.getInsightOp (deviceId : JVal) (out : ApiOutcome) : OpResult :=
  match out with
  | .apiError c _ =>
      if c = 20424 then .raiseUnauthorizedDevice deviceId
      else if c = 20404 then .raiseParamVerif
      else .ret .jnull
  | e => e.toResult

inductive Verb where
  | get
  | post
  deriving DecidableEq

/-- What a domain operation hands to the transport layer: the HTTP verb,
the API path and the payload mapping. -/
structure RequestSpec where
  verb : Verb
  path : String
  payload : List (String × JVal)

/-- Python s.lstrip over the slash character: drops every leading slash. -/
def lstripSlashes (s : String) : String :=
  s.dropWhile (fun c => c = '/')

/-- Python s.rstrip over the slash character: drops every trailing slash. -/
def rstripSlashes (s : String) : String :=
  String.mk ((s.toList.reverse.dropWhile (fun c => c = '/')).reverse)

/-- The full HTTP request issued by the blocking transport: URL joined
from the session URL and the stripped path, the payload, and the headers
dict.  A header value is an optional string so a null token is
representable. -/
structure HttpRequest where
  verb : Verb
  url : String
  payload : List (String × JVal)
  headers : List (String × Option String)

/-- Request construction of Ecos._get (client.py, lines 89-95): the path
loses its leading slashes, the URL is joined with a single slash, and the
Authorization header always carries the current access token verbatim. -/
def Ecos.buildGet (sessionUrl : String) (accessToken : Option String)
    (apiPath : String) (payload : List (String × JVal)) : HttpRequest :=
  ⟨.get, sessionUrl ++ "/" ++ lstripSlashes apiPath, payload,
    [("Authorization", accessToken)]⟩

/-- Request construction of Ecos._post (client.py, lines 125-131),
identical to Ecos._get except for the verb. -/
def Ecos.buildPost (sessionUrl : String) (accessToken : Option String)
    (apiPath : String) (payload : List (String × JVal)) : HttpRequest :=
  ⟨.post, sessionUrl ++ "/" ++ lstripSlashes apiPath, payload,
    [("Authorization", accessToken)]⟩

/-- Per-operation request of Ecos.login: path and payload of client.py
lines 154-161; t is the int(time.time()) value. -/
def Ecos.loginRequest (t : Int) (email password : String) : RequestSpec :=
  ⟨.post, "/api/client/guide/login",
    [("_t", .jnum t), ("clientType", .jstr "BROWSER"),
     ("clientVersion", .jstr "1.0"), ("email", .jstr email),
     ("password", .jstr password)]⟩

/-- Per-operation request of AsyncEcos.login (async_client.py, lines
41-49). -/
def AsyncEcos.loginRequest (t : Int) (email password : String) : RequestSpec :=
  ⟨.post, "/api/client/guide/login",
    [("_t", .jnum t), ("clientType", .jstr "BROWSER"),
     ("clientVersion", .jstr "1.0"), ("email", .jstr email),
     ("password", .jstr password)]⟩

def Ecos.userInfoRequest : RequestSpec :=
  ⟨.get, "/api/client/settings/user/info", []⟩

def AsyncEcos.userInfoRequest : RequestSpec :=
  ⟨.get, "/api/client/settings/user/info", []⟩

def Ecos.homesRequest : RequestSpec :=
  ⟨.get, "/api/client/v2/home/family/query", []⟩

def AsyncEcos.homesRequest : RequestSpec :=
  ⟨.get, "/api/client/v2/home/family/query", []⟩

def Ecos.devicesRequest (homeId : JVal) : RequestSpec :=
  ⟨.get, "/api/client/v2/home/device/query", [("homeId", homeId)]⟩

def AsyncEcos.devicesRequest (homeId : JVal) : RequestSpec :=
  ⟨.get, "/api/client/v2/home/device/query", [("homeId", homeId)]⟩

def Ecos.allDevicesRequest : RequestSpec :=
  ⟨.get, "/api/client/home/device/list", []⟩

def AsyncEcos.allDevicesRequest : RequestSpec :=
  ⟨.get, "/api/client/home/device/list", []⟩

/-- The blocking get_realtime_device_data posts to the now/device/realtime
path (client.py, lines 304-306). -/
def Ecos.realtimeDeviceRequest (deviceId : JVal) : RequestSpec :=
  ⟨.post, "/api/client/home/now/device/realtime", [("deviceId", deviceId)]⟩

/-- The non-blocking get_realtime_device_data posts to the
now/device/runData path (async_client.py, lines 346-348). -/
def AsyncEcos.realtimeDeviceRequest (deviceId : JVal) : RequestSpec :=
  ⟨.post, "/api/client/home/now/device/runData", [("deviceId", deviceId)]⟩

/-- The non-blocking get_today_device_data posts to the
now/device/realtime path (async_client.py, lines 248-250). -/
def AsyncEcos.todayDeviceDataRequest (deviceId : JVal) : RequestSpec :=
  ⟨.post, "/api/client/home/now/device/realtime", [("deviceId", deviceId)]⟩

def Ecos.realtimeHomeRequest (homeId : JVal) : RequestSpec :=
  ⟨.get, "/api/client/v2/home/device/runData", [("homeId", homeId)]⟩

def AsyncEcos.realtimeHomeRequest (homeId : JVal) : RequestSpec :=
  ⟨.get, "/api/client/v2/home/device/runData", [("homeId", homeId)]⟩

/-- Ecos.get_history request (client.py, lines 362-371): the timestamp
field is int(start_date.timestamp()), whole seconds since the epoch.  The
start date is represented by its epoch offset in microseconds, the full
precision of a Python datetime. -/
def Ecos.historyRequest (deviceId : JVal) (epochMicros : Nat)
    (periodType : Int) : RequestSpec :=
  ⟨.post, "/api/client/home/history/home",
    [("deviceId", deviceId),
     ("timestamp", .jnum (epochMicros / 1000000 : Nat)),
     ("periodType", .jnum periodType)]⟩

/-- AsyncEcos.get_history request (async_client.py, lines 392-402). -/
def AsyncEcos.historyRequest (deviceId : JVal) (epochMicros : Nat)
    (periodType : Int) : RequestSpec :=
  ⟨.post, "/api/client/home/history/home",
    [("deviceId", deviceId),
     ("timestamp", .jnum (epochMicros / 1000000 : Nat)),
     ("periodType", .jnum periodType)]⟩

/-- Ecos.get_insight request (client.py, lines 425-434): the timestamp
field is int(start_date.timestamp() * 1000), milliseconds since the
epoch. -/
def Ecos.insightRequest (deviceId : JVal) (epochMicros : Nat)
    (periodType : Int) : RequestSpec :=
  ⟨.post, "/api/client/v2/device/three/device/insight",
    [("deviceId", deviceId),
     ("timestamp", .jnum (epochMicros / 1000 : Nat)),
     ("periodType", .jnum periodType)]⟩

/-- AsyncEcos.get_insight request (async_client.py, lines 479-488). -/
def AsyncEcos.insightRequest (deviceId : JVal) (epochMicros : Nat)
    (periodType : Int) : RequestSpec :=
  ⟨.post, "/api/client/v2/device/three/device/insight",
    [("deviceId", deviceId),
     ("timestamp", .jnum (epochMicros / 1000 : Nat)),
     ("periodType", .jnum periodType)]⟩

/-- The public operation names of the blocking class Ecos (client.py). -/
def Ecos.methods : List String :=
  ["login", "get_user_info", "get_homes", "get_devices", "get_all_devices",
   "get_realtime_device_data", "get_realtime_home_data", "get_history",
   "get_insight"]

/-- The public operation names of the non-blocking class AsyncEcos
(async_client.py). -/
def AsyncEcos.methods : List String :=
  ["login", "get_user_info", "get_homes", "get_devices", "get_all_devices",
   "get_today_device_data", "get_realtime_home_data",
   "get_realtime_device_data", "get_history", "get_insight"]

/-- Result of constructing a session. -/
inductive InitResult where
  | ok (url : String) (accessToken refreshToken : Option String)
  | valueError (message : String)
  | initializationError
  deriving DecidableEq

/-- The fixed datacenter table of Ecos.__init__ (client.py, lines
58-62). -/
def datacenters : List (String × String) :=
  [("CN", "https://api-ecos-hu.weiheng-tech.com"),
   ("EU", "https://api-ecos-eu.weiheng-tech.com"),
   ("AU", "https://api-ecos-au.weiheng-tech.com")]

/-- Ecos.__init__ (client.py, lines 33-72): an explicit url takes
precedence over the datacenter and loses its trailing slashes; with no
url, a missing or unrecognized datacenter raises a plain ValueError. -/
def Ecos.init (datacenter url accessToken refreshToken : Option String) :
    InitResult :=
  match url with
  | none =>
    match datacenter with
    | none => .valueError "url or datacenter not specified"
    | some dc =>
      match datacenters.lookup dc with
      | some base => .ok base accessToken refreshToken
      | none => .valueError "datacenter must be one of CN, EU, AU"
  | some u => .ok (rstripSlashes u) accessToken refreshToken

/-- Modelled from the spec: _BaseEcos.__init__ in src/ecactus/base.py is
absent from the source tree (async_client.py inherits from it and
tests/test_async_client.py expects InitializationError from it).  Spec
sections 4.1 and 8: construction with neither datacenter nor url, or with
an unrecognized datacenter, fails with InitializationError; an explicit
url takes precedence and loses its trailing slash. -/
def BaseEcos.init (datacenter url accessToken refreshToken : Option String) :
    InitResult :=
  match url with
  | none =>
    match datacenter with
    | none => .initializationError
    | some dc =>
      match datacenters.lookup dc with
      | some base => .ok base accessToken refreshToken
      | none => .initializationError
  | some u => .ok (rstripSlashes u) accessToken refreshToken

/-- The Home model of src/ecactus/model.py, field for field (timestamps
as epoch milliseconds, geo-coordinates as optional integral floats). -/
structure HomeModel where
  id : String
  name : String
  type : Int
  longitude : Option Int
  latitude : Option Int
  deviceNumber : Int
  relationType : Int
  createTime : Int
  updateTime : Int
  deriving DecidableEq

/-- The model validator Home._enforce_shared_device_name (model.py, lines
64-69): after construction, a home of type 0 gets the fixed sentinel
name. -/
def HomeModel.enforceSharedDeviceName (h : HomeModel) : HomeModel :=
  if h.type = 0 then { h with name := "SHARED_DEVICES" } else h

/-- The configured state of EcosMockServer (tests/mock_server.py): the
accepted credentials and the issued token pair. -/
structure MockServer where
  login : String
  password : String
  accessToken : String
  refreshToken : String
  deriving DecidableEq

/-- EcosMockServer._response (mock_server.py, lines 66-81): the envelope
body, with the data key present only when data is not None, at the chosen
HTTP status. -/
def MockServer.response (data : Option JVal) (code : Int) (message : String)
    (success : Bool) (httpStatus : Nat) : HttpResponse :=
  ⟨httpStatus, some ⟨code, message, success, data⟩⟩

/-- EcosMockServer._ok_response (mock_server.py, lines 83-90). -/
def MockServer.okResponse (data : Option JVal) (code : Int) (message : String)
    (success : Bool) : HttpResponse :=
  MockServer.response data code message success 200

/-- EcosMockServer._success_response (mock_server.py, lines 92-96). -/
def MockServer.successResponse (data : Option JVal) : HttpResponse :=
  MockServer.okResponse data 0 "success" true

/-- EcosMockServer._unauthorized_response (mock_server.py, lines
98-102). -/
def MockServer.unauthorizedResponse : HttpResponse :=
  MockServer.response none 401 "Unauthorized" false 401

/-- EcosMockServer._not_implemented_response (mock_server.py, lines
104-106): an aiohttp HTTPNotImplemented, status 501 with a plain-text
body that is not a decodable envelope. -/
def MockServer.notImplementedResponse : HttpResponse :=
  ⟨501, none⟩

/-- EcosMockServer._is_authorized_request (mock_server.py, lines
150-153): the Authorization header must equal the issued access token; a
missing header compares unequal. -/
def MockServer.isAuthorizedRequest (S : MockServer)
    (authHeader : Option String) : Bool :=
  authHeader = some S.accessToken

/-- The JSON body of a login request as the mock reads it with
data.get. -/
structure LoginPayload where
  clientVersion : Option String
  clientType : Option String
  email : Option String
  password : Option String
  deriving DecidableEq

/-- The data dict of the code-20000 branch of handle_login (mock_server.py,
lines 118-131): one message per failing field check, in check order. -/
def MockServer.badLoginFields (p : LoginPayload) : List (String × JVal) :=
  (if pyFalsy p.clientVersion then [("clientVersion", JVal.jstr "cannot be blank")] else [])
    ++ (if p.clientType ≠ some "BROWSER" then [("clientType", JVal.jstr "Invalid terminal type")] else [])
    ++ (if pyFalsy p.email then [("email", JVal.jstr "cannot be blank")] else [])
    ++ (if pyFalsy p.password then [("password", JVal.jstr "cannot be blank")] else [])

/-- The message of the code-20000 branch of handle_login: each failing
check overwrites it, so the last failing check wins. -/
def MockServer.badLoginMessage (p : LoginPayload) : String :=
  if pyFalsy p.password then "cannot be blank"
  else if pyFalsy p.email then "cannot be blank"
  else if p.clientType ≠ some "BROWSER" then "Invalid terminal type"
  else "cannot be blank"

/-- EcosMockServer.handle_login (mock_server.py, lines 108-148): malformed
or blank fields give code 20000, mismatched credentials give code 20414,
matching credentials give the issued token pair; the HTTP status is 200 in
every branch. -/
def MockServer.handleLogin (S : MockServer) (p : LoginPayload) : HttpResponse :=
  if pyFalsy p.clientVersion ∨ p.clientType ≠ some "BROWSER"
      ∨ pyFalsy p.email ∨ pyFalsy p.password then
    ⟨200, some ⟨20000, MockServer.badLoginMessage p, false,
      some (.jobj (MockServer.badLoginFields p))⟩⟩
  else if p.email ≠ some S.login ∨ p.password ≠ some S.password then
    ⟨200, some ⟨20414, "Account or password or country error", false, none⟩⟩
  else
    ⟨200, some ⟨0, "success", true,
      some (.jobj [("accessToken", .jstr S.accessToken),
                   ("refreshToken", .jstr S.refreshToken)])⟩⟩

/-- Python str(request.query.get(key)): query values are strings; an
absent parameter is None and prints as None. -/
def pyStrQuery : Option String → String
  | none => "None"
  | some s => s

/-- The device-list fixture returned by handle_get_devices (mock_server.py,
lines 213-237). -/
def MockServer.deviceListData : JVal :=
  .jarr [.jobj
    [("deviceId", .jstr "1234567890123456789"),
     ("deviceAliasName", .jstr "My Device"),
     ("state", .jnum 0),
     ("batterySoc", .jnum 0),
     ("batteryPower", .jnum 0),
     ("socketSwitch", .jnull),
     ("chargeStationMode", .jnull),
     ("vpp", .jbool false),
     ("type", .jnum 1),
     ("deviceSn", .jstr "SHC000000000000001"),
     ("agentId", .jstr "9876543210987654321"),
     ("lon", .jnum 0),
     ("lat", .jnum 0),
     ("deviceType", .jstr "XX-XXX123       "),
     ("resourceSeriesId", .jnum 101),
     ("resourceTypeId", .jnum 7),
     ("master", .jnum 0),
     ("emsSoftwareVersion", .jstr "000-00000-00"),
     ("dsp1SoftwareVersion", .jstr "111-11111-11")]]

/-- EcosMockServer.handle_get_devices (mock_server.py, lines 205-237): an
unauthorized request gets HTTP 401; a homeId query parameter other than
the fixture id gets the code-20450 business envelope at HTTP 200; the
fixture id gets the device list. -/
def MockServer.handleGetDevices (S : MockServer) (authHeader : Option String)
    (homeIdParam : Option String) : HttpResponse :=
  if ¬ S.isAuthorizedRequest authHeader then MockServer.unauthorizedResponse
  else if pyStrQuery homeIdParam ≠ "9876543210987654321" then
    MockServer.okResponse none 20450 "Home does not exist." false
  else MockServer.successResponse (some MockServer.deviceListData)

/-- EcosMockServer.handle_get_realtime_home_data (mock_server.py, lines
317-344): same gatekeeping as handle_get_devices, then a fixed power
snapshot. -/
def MockServer.handleGetRealtimeHomeData (S : MockServer)
    (authHeader : Option String) (homeIdParam : Option String) : HttpResponse :=
  if ¬ S.isAuthorizedRequest authHeader then MockServer.unauthorizedResponse
  else if pyStrQuery homeIdParam ≠ "9876543210987654321" then
    MockServer.okResponse none 20450 "Home does not exist." false
  else MockServer.successResponse (some (.jobj
    [("batteryPower", .jnum 0), ("epsPower", .jnum 0), ("gridPower", .jnum 23),
     ("homePower", .jnum 1118), ("meterPower", .jnum 1118),
     ("solarPower", .jnum 0), ("chargePower", .jnum 0),
     ("batterySocList", .jarr [.jobj
       [("deviceSn", .jstr "SHC000000000000001"), ("batterySoc", .jnum 0),
        ("sysRunMode", .jnum 1), ("isExistSolar", .jbool true),
        ("sysPowerConfig", .jnum 3)]])]))

/-- EcosMockServer.handle_get_today_device_data (mock_server.py, lines
287-315): a deviceId payload field other than the fixture id gets the
code-20424 envelope at HTTP 401.  The synthetic metrics depend on the
wall clock and enter as the fakeData parameter. -/
def MockServer.handleGetTodayDeviceData (S : MockServer) (fakeData : JVal)
    (authHeader : Option String) (payload : List (String × JVal)) :
    HttpResponse :=
  if ¬ S.isAuthorizedRequest authHeader then MockServer.unauthorizedResponse
  else if pyStr (payload.lookup "deviceId") ≠ "1234567890123456789" then
    MockServer.response none 20424 "unauthorized device" false 401
  else MockServer.successResponse (some (.jobj
    [("solarPowerDps", fakeData), ("batteryPowerDps", fakeData),
     ("gridPowerDps", fakeData), ("meterPowerDps", fakeData),
     ("homePowerDps", fakeData), ("epsPowerDps", fakeData)]))

/-- EcosMockServer.handle_get_realtime_device_data (mock_server.py, lines
346-374). -/
def MockServer.handleGetRealtimeDeviceData (S : MockServer)
    (authHeader : Option String) (payload : List (String × JVal)) :
    HttpResponse :=
  if ¬ S.isAuthorizedRequest authHeader then MockServer.unauthorizedResponse
  else if pyStr (payload.lookup "deviceId") ≠ "1234567890123456789" then
    MockServer.response none 20424 "unauthorized device" false 401
  else MockServer.successResponse (some (.jobj
    [("batterySoc", .jnum 0), ("batteryPower", .jnum 0), ("epsPower", .jnum 0),
     ("gridPower", .jnum 0), ("homePower", .jnum 3581),
     ("meterPower", .jnum 3581), ("solarPower", .jnum 0),
     ("sysRunMode", .jnum 0), ("isExistSolar", .jbool true),
     ("sysPowerConfig", .jnum 3)]))

/-- Python membership of the periodType payload field in a tuple of int
literals: the in operator compares with Python equality. -/
def pyMemInts (v : Option JVal) (ns : List Int) : Bool :=
  match v with
  | none => false
  | some w => ns.any (fun n => pyEqInt w n)

/-- EcosMockServer.handle_get_history (mock_server.py, lines 376-407): the
device check precedes the periodType checks; a periodType outside
(0,1,2,3,4) gets the code-20404 envelope at HTTP 200; a periodType other
than 4 is answered 501 Not Implemented; the period-4 fixture depends on
the wall clock and enters as the histData parameter. -/
def MockServer.handleGetHistory (S : MockServer) (histData : JVal)
    (authHeader : Option String) (payload : List (String × JVal)) :
    HttpResponse :=
  if ¬ S.isAuthorizedRequest authHeader then MockServer.unauthorizedResponse
  else if pyStr (payload.lookup "deviceId") ≠ "1234567890123456789" then
    MockServer.response none 20424 "unauthorized device" false 401
  else if ¬ pyMemInts (payload.lookup "periodType") [0, 1, 2, 3, 4] then
    MockServer.okResponse none 20404 "Parameter verification failed" false
  else if ¬ pyMemInts (payload.lookup "periodType") [4] then
    MockServer.notImplementedResponse
  else MockServer.successResponse (some histData)

/-- EcosMockServer.handle_get_insight (mock_server.py, lines 409-464):
like handle_get_history with period set (0,2,4,5), only period 0
implemented, and the wall-clock fixture entering as insightData. -/
def MockServer.handleGetInsight (S : MockServer) (insightData : JVal)
    (authHeader : Option String) (payload : List (String × JVal)) :
    HttpResponse :=
  if ¬ S.isAuthorizedRequest authHeader then MockServer.unauthorizedResponse
  else if pyStr (payload.lookup "deviceId") ≠ "1234567890123456789" then
    MockServer.response none 20424 "unauthorized device" false 401
  else if ¬ pyMemInts (payload.lookup "periodType") [0, 2, 4, 5] then
    MockServer.okResponse none 20404 "Parameter verification failed" false
  else if ¬ pyMemInts (payload.lookup "periodType") [0] then
    MockServer.notImplementedResponse
  else MockServer.successResponse (some insightData)

/-- A mock server state with concrete credentials and tokens, as in
tests/conftest.py. -/
def sampleServer : MockServer :=
  ⟨"test@test.com", "password", "testaccesstoken", "testrefreshtoken"⟩

/-- A vendor home object of the shared-devices kind: homeType is the JSON
NUMBER 0 (as in the mock fixture) and the vendor supplied a name. -/
def sharedHomeRaw : JVal :=
  .jobj [("homeId", .jstr "1234567890123456789"),
         ("homeName", .jstr "My Shared Home"),
         ("homeType", .jnum 0)]

/-- The same home object after the sentinel name has been forced. -/
def sharedHomeForced : JVal :=
  .jobj [("homeId", .jstr "1234567890123456789"),
         ("homeName", .jstr "SHARED_DEVICES"),
         ("homeType", .jnum 0)]

/-- The deviceAliasName of the first element of a device-list payload. -/
def firstDeviceAlias (v : JVal) : Option JVal :=
  match v with
  | .jarr (d :: _) => d.getField "deviceAliasName"
  | _ => none

/-- List.lookup misses every key of the datacenter table when the query
differs from all three region codes. -/
theorem lookup_datacenters_eq_none (dc : String)
    (h1 : dc ≠ "CN") (h2 : dc ≠ "EU") (h3 : dc ≠ "AU") :
    datacenters.lookup dc = none := by
  have e1 : (dc == "CN") = false := beq_eq_false_iff_ne.mpr h1
  have e2 : (dc == "EU") = false := beq_eq_false_iff_ne.mpr h2
  have e3 : (dc == "AU") = false := beq_eq_false_iff_ne.mpr h3
  simp [datacenters, List.lookup, e1, e2, e3]

/-- C3: the blocking envelope handling mostly follows the claimed priority
chain (transport failure before business failure before success), but on a
body that is not decodable as JSON both Ecos._get and Ecos._post crash
with an UnboundLocalError while formatting the intended invalid-JSON
error, instead of failing with the invalid-envelope error kind; so the
claimed first outcome of the chain never occurs. -/
theorem C3_envelope_chain (env : Envelope) :
    Ecos.getOutcome ⟨200, none⟩ = .raiseUnboundLocal ∧
    Ecos.postOutcome ⟨200, none⟩ = .raiseUnboundLocal ∧
    (∀ c m, Ecos.getOutcome ⟨200, none⟩ ≠ .raiseValueInvalidJson c m) ∧
    Ecos.getOutcome ⟨404, some env⟩ = .raiseHttpError 404 env.message ∧
    Ecos.getOutcome ⟨200, some ⟨20450, "Home does not exist.", false, none⟩⟩
      = .raiseValueApiFailed 20450 "Home does not exist." ∧
    Ecos.getOutcome ⟨200, some ⟨0, "success", true, some (.jstr "payload")⟩⟩
      = .ret (.jstr "payload") := by
  refine ⟨rfl, rfl, ?_, ?_, rfl, rfl⟩
  · intro c m h
    exact OpResult.noConfusion h
  · simp [Ecos.getOutcome]

/-- C2: the non-blocking operations do NOT pass an unrecognized vendor
code through: the except clause of get_devices and get_insight swallows
any ApiResponseError whose code is not in the known-translation set and
the operation returns None, while login falls through to an unbound local
variable and crashes; vendor code 12345 is never re-raised. -/
theorem C2_unknown_code_swallowed :
    AsyncEcos.getDevicesOp (.jnum 0) (.apiError 12345 "unexpected") = .ret .jnull ∧
    AsyncEcos.getDevicesOp (.jnum 0) (.apiError 12345 "unexpected")
      ≠ .raiseApiError 12345 "unexpected" ∧
    AsyncEcos.getInsightOp (.jnum 0) (.apiError 12345 "unexpected") = .ret .jnull ∧
    AsyncEcos.loginOp (.apiError 12345 "unexpected") = .raiseUnboundLocal := by
  refine ⟨rfl, ?_, rfl, rfl⟩
  intro h
  exact OpResult.noConfusion h

/-- C5: a vendor home with homeType the number 0 keeps its vendor name on
the blocking surface (get_homes compares homeType to the STRING zero),
while the non-blocking surface and the pydantic Home model force the
SHARED_DEVICES sentinel as the claim states. -/
theorem C5_shared_home_name :
    Ecos.forceSharedName sharedHomeRaw = some sharedHomeRaw ∧
    AsyncEcos.forceSharedName sharedHomeRaw = some sharedHomeForced ∧
    sharedHomeRaw ≠ sharedHomeForced ∧
    (HomeModel.enforceSharedDeviceName
      ⟨"1234567890123456789", "My Shared Home", 0, none, none, 1, 1,
       946684800000, 946684800000⟩).name = "SHARED_DEVICES" := by
  refine ⟨rfl, rfl, ?_, rfl⟩
  intro h
  simp [sharedHomeRaw, sharedHomeForced] at h

/-- C1 (counterexample): the two surfaces are not behaviorally identical:
they expose different operation sets, the get_realtime_device_data
operations post to different paths, and on the same vendor home list the
two get_homes post-processing loops give different homes. -/
theorem C1_counterexample :
    Ecos.methods ≠ AsyncEcos.methods ∧
    (Ecos.realtimeDeviceRequest (.jnum 0)).path
      ≠ (AsyncEcos.realtimeDeviceRequest (.jnum 0)).path ∧
    Ecos.forceSharedName sharedHomeRaw ≠ AsyncEcos.forceSharedName sharedHomeRaw := by
  refine ⟨by decide, by decide, ?_⟩
  intro h
  simp [Ecos.forceSharedName, AsyncEcos.forceSharedName, sharedHomeRaw,
    JVal.getField, setField, pyEqStr, pyToInt, List.lookup] at h

/-- C1 (amended): for the operations exposed by both surfaces the two
clients hand the same verb, path and payload to the transport layer for
identical inputs; behavioral identity fails only in the operation sets,
the error translation and the get_homes post-processing. -/
theorem C1_shared_operation_requests (t : Int) (email password : String)
    (homeId deviceId : JVal) (epochMicros : Nat) (periodType : Int) :
    Ecos.loginRequest t email password = AsyncEcos.loginRequest t email password ∧
    Ecos.userInfoRequest = AsyncEcos.userInfoRequest ∧
    Ecos.homesRequest = AsyncEcos.homesRequest ∧
    Ecos.devicesRequest homeId = AsyncEcos.devicesRequest homeId ∧
    Ecos.allDevicesRequest = AsyncEcos.allDevicesRequest ∧
    Ecos.realtimeHomeRequest homeId = AsyncEcos.realtimeHomeRequest homeId ∧
    Ecos.historyRequest deviceId epochMicros periodType
      = AsyncEcos.historyRequest deviceId epochMicros periodType ∧
    Ecos.insightRequest deviceId epochMicros periodType
      = AsyncEcos.insightRequest deviceId epochMicros periodType :=
  ⟨rfl, rfl, rfl, rfl, rfl, rfl, rfl, rfl⟩

/-- C4 (counterexample): on the blocking surface login raises the generic
business-failure error for the 20414 envelope, not AuthenticationError;
and the mock answers code 20000, not 20414, when the mismatching password
is blank. -/
theorem C4_counterexample :
    Ecos.loginOp ⟨200, some ⟨20414, "Account or password or country error", false, none⟩⟩
      = .raiseValueApiFailed 20414 "Account or password or country error" ∧
    Ecos.loginOp ⟨200, some ⟨20414, "Account or password or country error", false, none⟩⟩
      ≠ .raiseAuth ∧
    sampleServer.handleLogin ⟨some "1.0", some "BROWSER", some "nobody@test.com", some ""⟩
      = ⟨200, some ⟨20000, "cannot be blank", false,
          some (.jobj [("password", .jstr "cannot be blank")])⟩⟩ := by
  refine ⟨rfl, ?_, ?_⟩
  · intro h
    exact OpResult.noConfusion h
  · rfl

/-- C4 (amended): the non-blocking login translates the 20414 envelope to
AuthenticationError; the blocking login raises the generic error for it;
and the mock produces exactly the 20414 envelope when a well-formed login
request (clientVersion present, clientType BROWSER, email and password
non-blank) carries an email or password that does not match the
configured credentials. -/
theorem C4_login_20414 (m : String) (d : Option JVal) (S : MockServer)
    (p : LoginPayload)
    (hcv : pyFalsy p.clientVersion = false) (hct : p.clientType = some "BROWSER")
    (he : pyFalsy p.email = false) (hp : pyFalsy p.password = false)
    (hmm : p.email ≠ some S.login ∨ p.password ≠ some S.password) :
    AsyncEcos.loginOp (.apiError 20414 m) = .raiseAuth ∧
    Ecos.loginOp ⟨200, some ⟨20414, m, false, d⟩⟩ = .raiseValueApiFailed 20414 m ∧
    S.handleLogin p
      = ⟨200, some ⟨20414, "Account or password or country error", false, none⟩⟩ := by
  refine ⟨rfl, rfl, ?_⟩
  have hno : ¬(pyFalsy p.clientVersion = true ∨ p.clientType ≠ some "BROWSER"
      ∨ pyFalsy p.email = true ∨ pyFalsy p.password = true) := by
    simp [hcv, hct, he, hp]
  simp only [MockServer.handleLogin]
  rw [if_neg hno, if_pos hmm]

/-- C4 (witness): the amended statement at a concrete well-formed but
mismatching login request against the sample mock server. -/
theorem C4_login_20414_witness :
    AsyncEcos.loginOp (.apiError 20414 "boom") = .raiseAuth ∧
    Ecos.loginOp ⟨200, some ⟨20414, "boom", false, none⟩⟩
      = .raiseValueApiFailed 20414 "boom" ∧
    sampleServer.handleLogin
      ⟨some "1.0", some "BROWSER", some "wrong@test.com", some "secret"⟩
      = ⟨200, some ⟨20414, "Account or password or country error", false, none⟩⟩ :=
  C4_login_20414 "boom" none sampleServer
    ⟨some "1.0", some "BROWSER", some "wrong@test.com", some "secret"⟩
    rfl rfl rfl rfl (Or.inl (by decide))

/-- C6 (counterexample): constructing the blocking client with neither
datacenter nor url fails with a plain ValueError, not with the
InitializationError kind the claim names. -/
theorem C6_counterexample :
    Ecos.init none none none none = .valueError "url or datacenter not specified" ∧
    Ecos.init none none none none ≠ .initializationError := by
  refine ⟨rfl, ?_⟩
  intro h
  exact InitResult.noConfusion h

/-- C6 (amended): with neither datacenter nor url, or with an unrecognized
datacenter, construction fails — with InitializationError on the
non-blocking base (modelled from the spec) but with a plain ValueError in
the blocking client of client.py; a valid datacenter resolves its fixed
base URL, an explicit url takes precedence over any datacenter, and
trailing slashes of the explicit url are stripped. -/
theorem C6_construction (a r : Option String) (dc u : String)
    (h1 : dc ≠ "CN") (h2 : dc ≠ "EU") (h3 : dc ≠ "AU") :
    Ecos.init none none a r = .valueError "url or datacenter not specified" ∧
    BaseEcos.init none none a r = .initializationError ∧
    Ecos.init (some dc) none a r = .valueError "datacenter must be one of CN, EU, AU" ∧
    BaseEcos.init (some dc) none a r = .initializationError ∧
    Ecos.init (some "EU") none a r = .ok "https://api-ecos-eu.weiheng-tech.com" a r ∧
    BaseEcos.init (some "EU") none a r = .ok "https://api-ecos-eu.weiheng-tech.com" a r ∧
    Ecos.init (some "CN") none a r = .ok "https://api-ecos-hu.weiheng-tech.com" a r ∧
    Ecos.init (some "AU") none a r = .ok "https://api-ecos-au.weiheng-tech.com" a r ∧
    Ecos.init (some dc) (some u) a r = .ok (rstripSlashes u) a r ∧
    BaseEcos.init (some dc) (some u) a r = .ok (rstripSlashes u) a r ∧
    rstripSlashes "https://example.com/" = "https://example.com" := by
  have hl := lookup_datacenters_eq_none dc h1 h2 h3
  refine ⟨rfl, rfl, ?_, ?_, rfl, rfl, rfl, rfl, rfl, rfl, rfl⟩
  · simp [Ecos.init, hl]
  · simp [BaseEcos.init, hl]

/-- C6 (witness): the amended statement at the unrecognized datacenter XX
and a concrete slash-terminated url. -/
theorem C6_construction_witness :
    Ecos.init none none (some "tok") none
      = .valueError "url or datacenter not specified" ∧
    BaseEcos.init none none (some "tok") none = .initializationError ∧
    Ecos.init (some "XX") none (some "tok") none
      = .valueError "datacenter must be one of CN, EU, AU" ∧
    BaseEcos.init (some "XX") none (some "tok") none = .initializationError ∧
    Ecos.init (some "EU") none (some "tok") none
      = .ok "https://api-ecos-eu.weiheng-tech.com" (some "tok") none ∧
    BaseEcos.init (some "EU") none (some "tok") none
      = .ok "https://api-ecos-eu.weiheng-tech.com" (some "tok") none ∧
    Ecos.init (some "CN") none (some "tok") none
      = .ok "https://api-ecos-hu.weiheng-tech.com" (some "tok") none ∧
    Ecos.init (some "AU") none (some "tok") none
      = .ok "https://api-ecos-au.weiheng-tech.com" (some "tok") none ∧
    Ecos.init (some "XX") (some "https://example.com//") (some "tok") none
      = .ok (rstripSlashes "https://example.com//") (some "tok") none ∧
    BaseEcos.init (some "XX") (some "https://example.com//") (some "tok") none
      = .ok (rstripSlashes "https://example.com//") (some "tok") none ∧
    rstripSlashes "https://example.com/" = "https://example.com" :=
  C6_construction (some "tok") none "XX" "https://example.com//"
    (by decide) (by decide) (by decide)

/-- C7 (counterexample): on the blocking surface get_devices lets the
code-20450 business failure escape as the generic ValueError instead of
raising HomeDoesNotExistError with the home id. -/
theorem C7_counterexample :
    Ecos.getDevicesOp (.jnum 0) ⟨200, some ⟨20450, "Home does not exist.", false, none⟩⟩
      = .raiseValueApiFailed 20450 "Home does not exist." ∧
    Ecos.getDevicesOp (.jnum 0) ⟨200, some ⟨20450, "Home does not exist.", false, none⟩⟩
      ≠ .raiseHomeNotExist (.jnum 0) := by
  refine ⟨rfl, ?_⟩
  intro h
  exact OpResult.noConfusion h

/-- C7 (amended): the non-blocking get_devices translates the code-20450
failure to HomeDoesNotExistError carrying the home id, end to end against
the mock for any unknown home id; the known id 9876543210987654321 yields
the fixture list, and the alias of its first element is My Device; the blocking
get_devices raises the generic error instead. -/
theorem C7_get_devices (homeId : JVal) (m : String) (S : MockServer)
    (hid : String) (h : hid ≠ "9876543210987654321") :
    AsyncEcos.getDevicesOp homeId (.apiError 20450 m) = .raiseHomeNotExist homeId ∧
    S.handleGetDevices (some S.accessToken) (some hid)
      = MockServer.okResponse none 20450 "Home does not exist." false ∧
    AsyncEcos.getDevicesOp homeId
      (BaseEcos.asyncCodec (S.handleGetDevices (some S.accessToken) (some hid)))
      = .raiseHomeNotExist homeId ∧
    S.handleGetDevices (some S.accessToken) (some "9876543210987654321")
      = MockServer.successResponse (some MockServer.deviceListData) ∧
    AsyncEcos.getDevicesOp homeId
      (BaseEcos.asyncCodec
        (S.handleGetDevices (some S.accessToken) (some "9876543210987654321")))
      = .ret MockServer.deviceListData ∧
    firstDeviceAlias MockServer.deviceListData = some (.jstr "My Device") ∧
    Ecos.getDevicesOp homeId ⟨200, some ⟨20450, m, false, none⟩⟩
      = .raiseValueApiFailed 20450 m := by
  have hauth : S.isAuthorizedRequest (some S.accessToken) = true := by
    simp [MockServer.isAuthorizedRequest]
  have e2 : S.handleGetDevices (some S.accessToken) (some hid)
      = MockServer.okResponse none 20450 "Home does not exist." false := by
    simp [MockServer.handleGetDevices, hauth, pyStrQuery, h]
  have e4 : S.handleGetDevices (some S.accessToken) (some "9876543210987654321")
      = MockServer.successResponse (some MockServer.deviceListData) := by
    simp [MockServer.handleGetDevices, hauth, pyStrQuery]
  refine ⟨rfl, e2, ?_, e4, ?_, rfl, rfl⟩
  · rw [e2]
    rfl
  · rw [e4]
    rfl

/-- C7 (witness): the amended statement at the unknown home id 0 against
the sample mock server. -/
theorem C7_get_devices_witness :
    AsyncEcos.getDevicesOp (.jnum 0) (.apiError 20450 "Home does not exist.")
      = .raiseHomeNotExist (.jnum 0) ∧
    sampleServer.handleGetDevices (some sampleServer.accessToken) (some "0")
      = MockServer.okResponse none 20450 "Home does not exist." false ∧
    AsyncEcos.getDevicesOp (.jnum 0)
      (BaseEcos.asyncCodec
        (sampleServer.handleGetDevices (some sampleServer.accessToken) (some "0")))
      = .raiseHomeNotExist (.jnum 0) ∧
    sampleServer.handleGetDevices (some sampleServer.accessToken)
        (some "9876543210987654321")
      = MockServer.successResponse (some MockServer.deviceListData) ∧
    AsyncEcos.getDevicesOp (.jnum 0)
      (BaseEcos.asyncCodec
        (sampleServer.handleGetDevices (some sampleServer.accessToken)
          (some "9876543210987654321")))
      = .ret MockServer.deviceListData ∧
    firstDeviceAlias MockServer.deviceListData = some (.jstr "My Device") ∧
    Ecos.getDevicesOp (.jnum 0) ⟨200, some ⟨20450, "Home does not exist.", false, none⟩⟩
      = .raiseValueApiFailed 20450 "Home does not exist." :=
  C7_get_devices (.jnum 0) "Home does not exist." sampleServer "0" (by decide)

/-- C8 (counterexample): for a start date one and a half seconds after the
epoch (epoch offset 1500000 microseconds) get_insight sends timestamp
1500 while get_history sends timestamp 1, and 1500 is not one thousand
times 1, so the claimed exact thousand-fold relation between the two
timestamp fields does not hold for every input. -/
theorem C8_counterexample :
    (Ecos.insightRequest (.jnum 1) 1500000 0).payload.lookup "timestamp"
      = some (.jnum 1500) ∧
    (Ecos.historyRequest (.jnum 1) 1500000 0).payload.lookup "timestamp"
      = some (.jnum 1) ∧
    (1500 : Int) ≠ 1000 * 1 := by
  exact ⟨rfl, rfl, by decide⟩

/-- C8 (amended): on both surfaces get_history sends the start date as
whole seconds since the epoch and get_insight sends it as whole
milliseconds since the epoch; the exact thousand-fold relation between
the two fields holds whenever the start date has whole-second
precision. -/
theorem C8_timestamp_units (deviceId : JVal) (epochMicros : Nat)
    (periodType : Int) (h : epochMicros % 1000000 = 0) :
    (Ecos.historyRequest deviceId epochMicros periodType).payload.lookup "timestamp"
      = some (.jnum (epochMicros / 1000000 : Nat)) ∧
    (Ecos.insightRequest deviceId epochMicros periodType).payload.lookup "timestamp"
      = some (.jnum (epochMicros / 1000 : Nat)) ∧
    AsyncEcos.historyRequest deviceId epochMicros periodType
      = Ecos.historyRequest deviceId epochMicros periodType ∧
    AsyncEcos.insightRequest deviceId epochMicros periodType
      = Ecos.insightRequest deviceId epochMicros periodType ∧
    (epochMicros / 1000 : Nat) = 1000 * (epochMicros / 1000000) := by
  refine ⟨rfl, rfl, rfl, rfl, ?_⟩
  omega

/-- C8 (witness): the amended statement at a start date three seconds
after the epoch. -/
theorem C8_timestamp_units_witness :
    (Ecos.historyRequest (.jnum 1) 3000000 4).payload.lookup "timestamp"
      = some (.jnum (3000000 / 1000000 : Nat)) ∧
    (Ecos.insightRequest (.jnum 1) 3000000 4).payload.lookup "timestamp"
      = some (.jnum (3000000 / 1000 : Nat)) ∧
    AsyncEcos.historyRequest (.jnum 1) 3000000 4
      = Ecos.historyRequest (.jnum 1) 3000000 4 ∧
    AsyncEcos.insightRequest (.jnum 1) 3000000 4
      = Ecos.insightRequest (.jnum 1) 3000000 4 ∧
    (3000000 / 1000 : Nat) = 1000 * (3000000 / 1000000) :=
  C8_timestamp_units (.jnum 1) 3000000 4 (by decide)

/-- C9: both blocking transport builders always attach an Authorization
header whose value is the current access token of the session verbatim, a null
token included; and the mock rejects the request without the matching
token, answering the unauthorized condition. -/
theorem C9_auth_header (sessionUrl : String) (token : Option String)
    (apiPath : String) (payload : List (String × JVal)) (S : MockServer)
    (homeIdParam : Option String) :
    (Ecos.buildGet sessionUrl token apiPath payload).headers
      = [("Authorization", token)] ∧
    (Ecos.buildPost sessionUrl token apiPath payload).headers
      = [("Authorization", token)] ∧
    S.isAuthorizedRequest none = false ∧
    S.handleGetDevices none homeIdParam = MockServer.unauthorizedResponse :=
  ⟨rfl, rfl, rfl, rfl⟩

/-- C10: in the mock, an authorized request to any device-scoped endpoint
with a deviceId other than the fixture id gets the code-20424 envelope at
HTTP status 401, while an authorized request to either home-scoped
endpoint with a homeId other than the fixture id gets the code-20450
envelope at HTTP status 200. -/
theorem C10_mock_error_statuses (S : MockServer)
    (fakeData histData insightData : JVal) (did hid : String) (period : JVal)
    (hd : did ≠ "1234567890123456789") (hh : hid ≠ "9876543210987654321") :
    S.handleGetTodayDeviceData fakeData (some S.accessToken)
        [("deviceId", .jstr did)]
      = MockServer.response none 20424 "unauthorized device" false 401 ∧
    S.handleGetRealtimeDeviceData (some S.accessToken) [("deviceId", .jstr did)]
      = MockServer.response none 20424 "unauthorized device" false 401 ∧
    S.handleGetHistory histData (some S.accessToken)
        [("deviceId", .jstr did), ("periodType", period)]
      = MockServer.response none 20424 "unauthorized device" false 401 ∧
    S.handleGetInsight insightData (some S.accessToken)
        [("deviceId", .jstr did), ("periodType", period)]
      = MockServer.response none 20424 "unauthorized device" false 401 ∧
    S.handleGetDevices (some S.accessToken) (some hid)
      = MockServer.okResponse none 20450 "Home does not exist." false ∧
    S.handleGetRealtimeHomeData (some S.accessToken) (some hid)
      = MockServer.okResponse none 20450 "Home does not exist." false ∧
    (MockServer.response none 20424 "unauthorized device" false 401).status = 401 ∧
    (MockServer.okResponse none 20450 "Home does not exist." false).status = 200 := by
  have hauth : S.isAuthorizedRequest (some S.accessToken) = true := by
    simp [MockServer.isAuthorizedRequest]
  refine ⟨?_, ?_, ?_, ?_, ?_, ?_, rfl, rfl⟩
  · simp [MockServer.handleGetTodayDeviceData, hauth, List.lookup, pyStr, hd]
  · simp [MockServer.handleGetRealtimeDeviceData, hauth, List.lookup, pyStr, hd]
  · simp [MockServer.handleGetHistory, hauth, List.lookup, pyStr, hd]
  · simp [MockServer.handleGetInsight, hauth, List.lookup, pyStr, hd]
  · simp [MockServer.handleGetDevices, hauth, pyStrQuery, hh]
  · simp [MockServer.handleGetRealtimeHomeData, hauth, pyStrQuery, hh]

/-- C10 (witness): the statement at the wrong device id 0 and wrong home
id 0 against the sample mock server. -/
theorem C10_mock_error_statuses_witness :
    sampleServer.handleGetTodayDeviceData .jnull (some sampleServer.accessToken)
        [("deviceId", .jstr "0")]
      = MockServer.response none 20424 "unauthorized device" false 401 ∧
    sampleServer.handleGetRealtimeDeviceData (some sampleServer.accessToken)
        [("deviceId", .jstr "0")]
      = MockServer.response none 20424 "unauthorized device" false 401 ∧
    sampleServer.handleGetHistory .jnull (some sampleServer.accessToken)
        [("deviceId", .jstr "0"), ("periodType", .jnum 0)]
      = MockServer.response none 20424 "unauthorized device" false 401 ∧
    sampleServer.handleGetInsight .jnull (some sampleServer.accessToken)
        [("deviceId", .jstr "0"), ("periodType", .jnum 0)]
      = MockServer.response none 20424 "unauthorized device" false 401 ∧
    sampleServer.handleGetDevices (some sampleServer.accessToken) (some "0")
      = MockServer.okResponse none 20450 "Home does not exist." false ∧
    sampleServer.handleGetRealtimeHomeData (some sampleServer.accessToken)
        (some "0")
      = MockServer.okResponse none 20450 "Home does not exist." false ∧
    (MockServer.response none 20424 "unauthorized device" false 401).status = 401 ∧
    (MockServer.okResponse none 20450 "Home does not exist." false).status = 200 :=
  C10_mock_error_statuses sampleServer .jnull .jnull .jnull "0" "0" (.jnum 0)
    (by decide) (by decide)

end Ecactus







